import Mathlib

/-!
Verification of the Context Memory and Direct-Question Detection engine of the
banterbox repository, as a shallow embedding of
`src/server/intelligentDetection.ts` and `src/server/postgresContextService.ts`.

Times are modelled as integer millisecond timestamps.  The probabilistic
decisions (`Math.random() < p`) are modelled by passing the random draw as an
explicit rational in `[0,1)`.  The outcomes of the external, effectful tests of
`analyzeMessage` (the regular-expression catalog, `findRelatedResponses`,
`hasSpecificReferences`, `performOpenAIAnalysis`) are passed as explicit
parameters, exactly as the claims quantify over "every outcome" of those terms;
the score-fusion arithmetic, the reasoning string and the clamping are embedded
literally from the source.
-/

namespace Banterbox

/-- Outcome of `performOpenAIAnalysis` as observed by `analyzeMessage`
(`src/server/intelligentDetection.ts` lines 184-202): the call either yields
`null` (any internal error is caught there, so `failed` covers both the `null`
result and the dead outer `catch`), or a parsed judgment with a boolean
`isDirectQuestion` and a `reasoning` string. -/
inductive OpenAIOutcome where
  | failed : OpenAIOutcome
  | succeeded : Bool → String → OpenAIOutcome
deriving DecidableEq, Repr

/-- Row of the `aiResponses` table (a `PriorResponse` in the spec), with the
fields the embedded code reads and writes. -/
structure AiResponseRecord where
  userId : String
  guildId : Option String
  responseText : String
  questionAsked : Option String
  wasDirectQuestion : Bool
  createdAt : Int
  expiresAt : Int
deriving DecidableEq, Repr

/-- Boolean outcomes of the three purely message-level tests of
`analyzeMessage` and `analyzeMessageRuleBased`: the direct-question
regular-expression catalog (`directQuestionPatterns.some`), the temporal
indicator test `/(just|recently|before|earlier|last|previous)/i`, and the
question-format test `/\?$/` on the trimmed message. -/
structure MessageFeatures where
  patternMatch : Bool
  hasTemporalIndicators : Bool
  isQuestionFormat : Bool
deriving DecidableEq, Repr

/-- Return shape of `analyzeMessage` (`intelligentDetection.ts` lines 93-217). -/
structure AnalysisResult where
  isDirectQuestion : Bool
  confidence : Int
  reasoning : String
  relatedResponses : List AiResponseRecord
deriving Repr

/-- Embedding of `IntelligentDetectionService.analyzeMessage`
(`intelligentDetection.ts` lines 93-217).  `relatedResponses` is the outcome of
`findRelatedResponses`, `hasSpecificReferences` the outcome of the specific
reference check, and `openai` the outcome of `performOpenAIAnalysis`.  The
sequential `confidence +=` updates are written as one sum, the sequential
`reasoning +=` updates as one concatenation, in the order of the source. -/
def analyzeMessage (msg : MessageFeatures) (relatedResponses : List AiResponseRecord)
    (hasSpecificReferences : Bool) (openai : OpenAIOutcome) : AnalysisResult :=
  let confidence : Int :=
    (if msg.patternMatch then 4 else 0)
    + (if relatedResponses.length > 0 then 3 else 0)
    + (if hasSpecificReferences then 2 else 0)
    + (if msg.hasTemporalIndicators then 1 else 0)
    + (if msg.isQuestionFormat then 1 else 0)
    + (match openai with
       | .failed => 0
       | .succeeded true _ => 3
       | .succeeded false _ => -2)
  let reasoning : String :=
    (if msg.patternMatch then "Message matches direct question patterns. " else "")
    ++ (if relatedResponses.length > 0 then
          "Found " ++ toString relatedResponses.length ++ " related previous responses. "
        else "")
    ++ (if hasSpecificReferences then
          "Message contains specific references to recent content. "
        else "")
    ++ (if msg.hasTemporalIndicators then
          "Message contains temporal indicators suggesting reference to recent events. "
        else "")
    ++ (if msg.isQuestionFormat then "Message is formatted as a question. " else "")
    ++ (match openai with
        | .failed => ""
        | .succeeded _ r => "OpenAI analysis: " ++ r ++ " ")
  let isDirectQuestion : Bool := decide (confidence ≥ 5)
  let reasoning :=
    if !isDirectQuestion then
      reasoning ++ "Overall confidence too low to classify as direct question. "
    else reasoning
  { isDirectQuestion := isDirectQuestion
    confidence := min confidence 10
    reasoning := reasoning.trim
    relatedResponses := relatedResponses }

/-- Return shape of `analyzeMessageRuleBased`. -/
structure RuleBasedResult where
  isDirectQuestion : Bool
  confidence : Int
  reasoning : String
deriving Repr

/-- Embedding of `IntelligentDetectionService.analyzeMessageRuleBased`
(`intelligentDetection.ts` lines 449-532): the database-free fallback, scoring
only the pattern catalog, the temporal indicator and the question format. -/
def analyzeMessageRuleBased (msg : MessageFeatures) : RuleBasedResult :=
  let confidence : Int :=
    (if msg.patternMatch then 4 else 0)
    + (if msg.hasTemporalIndicators then 1 else 0)
    + (if msg.isQuestionFormat then 1 else 0)
  let reasoning : String :=
    (if msg.patternMatch then "Message matches direct question patterns. " else "")
    ++ (if msg.hasTemporalIndicators then
          "Message contains temporal indicators suggesting reference to recent events. "
        else "")
    ++ (if msg.isQuestionFormat then "Message is formatted as a question. " else "")
  let isDirectQuestion : Bool := decide (confidence ≥ 5)
  let reasoning :=
    if !isDirectQuestion then
      reasoning ++ "Overall confidence too low to classify as direct question. "
    else reasoning
  { isDirectQuestion := isDirectQuestion
    confidence := min confidence 10
    reasoning := reasoning.trim }

/-- Outcome of the two storage reads at the start of `detectDirectQuestion`
(`intelligentDetection.ts` lines 36-61) together with the downstream term
outcomes they determine: `ok` carries the outcome of `findRelatedResponses`,
of `hasSpecificReferences` and of the advisory call on the loaded rows;
`failed` is a thrown storage error. -/
inductive StorageOutcome where
  | ok : List AiResponseRecord → Bool → OpenAIOutcome → StorageOutcome
  | failed : StorageOutcome

/-- Return shape of `detectDirectQuestion`. -/
structure DetectionResult where
  isDirectQuestion : Bool
  confidence : Int
  reasoning : String
  relatedResponses : List AiResponseRecord
  shouldAlwaysRespond : Bool
deriving Repr

/-- Embedding of `IntelligentDetectionService.detectDirectQuestion`
(`intelligentDetection.ts` lines 32-87): on a successful storage read it fuses
the full analysis and sets `shouldAlwaysRespond` to
`isDirectQuestion || confidence > 7`; on a storage error it falls back to
`analyzeMessageRuleBased`, empty `relatedResponses`, the fallback reasoning
note, and `shouldAlwaysRespond = isDirectQuestion`. -/
def detectDirectQuestion (msg : MessageFeatures) (storage : StorageOutcome) :
    DetectionResult :=
  match storage with
  | .ok related specific openai =>
    let a := analyzeMessage msg related specific openai
    { isDirectQuestion := a.isDirectQuestion
      confidence := a.confidence
      reasoning := a.reasoning
      relatedResponses := a.relatedResponses
      shouldAlwaysRespond := a.isDirectQuestion || decide (a.confidence > 7) }
  | .failed =>
    let f := analyzeMessageRuleBased msg
    { isDirectQuestion := f.isDirectQuestion
      confidence := f.confidence
      reasoning := f.reasoning ++ " (Fallback mode - database unavailable)"
      relatedResponses := []
      shouldAlwaysRespond := f.isDirectQuestion }

/-- Semi-structured `eventData` payload, with the optional fields the embedded
code reads (`displayName`, `username`, `emoji`, `message`, `source`). -/
structure EventData where
  displayName : Option String
  username : Option String
  emoji : Option String
  message : Option String
  source : Option String
deriving DecidableEq, Repr

/-- JavaScript truthiness of an optional string: absent and empty are falsy. -/
def strTruthy : Option String → Bool
  | none => false
  | some s => !(s == "")

/-- Display name used in the summary templates:
`eventData.displayName || eventData.username`, rendering as `undefined` when
both are absent (JavaScript template-literal behaviour). -/
def summaryName (d : EventData) : String :=
  if strTruthy d.displayName then d.displayName.getD ""
  else if strTruthy d.username then d.username.getD ""
  else "undefined"

/-- Embedding of `PostgresContextService.generateContextSummary`
(`postgresContextService.ts` lines 359-380). -/
def generateContextSummary (eventType : String) (d : EventData) : String :=
  if eventType == "discord_message" then
    "User " ++ summaryName d ++ " sent a message"
  else if eventType == "discord_member_join" then
    "User " ++ summaryName d ++ " joined the server"
  else if eventType == "discord_reaction" then
    "User " ++ summaryName d ++ " reacted with "
      ++ (if strTruthy d.emoji then d.emoji.getD "" else "undefined")
  else if eventType == "voice_message" then
    "Voice message from " ++ summaryName d ++ ": \""
      ++ (if strTruthy d.message then d.message.getD "" else "undefined") ++ "\""
  else if eventType == "chat" then
    "Chat message from " ++ summaryName d
  else if eventType == "subscription" then
    "New subscription from " ++ summaryName d
  else if eventType == "donation" then
    "Donation from " ++ summaryName d
  else if eventType == "raid" then
    "Raid from " ++ summaryName d
  else
    "Event: " ++ eventType

/-- Row of the `contextMemory` table (a `ContextEvent` in the spec), with the
fields the embedded code reads and writes. -/
structure ContextMemoryRecord where
  userId : String
  guildId : Option String
  eventType : String
  eventData : Option EventData
  contextSummary : String
  originalMessage : Option String
  banterResponse : Option String
  importance : Int
  participants : List String
  createdAt : Int
  expiresAt : Int
deriving DecidableEq, Repr

/-- Database state: the two tables the engine owns. -/
structure DB where
  contextMemory : List ContextMemoryRecord
  aiResponses : List AiResponseRecord
deriving DecidableEq, Repr

/-- Embedding of `PostgresContextService.cleanExpiredContext`
(`postgresContextService.ts` lines 283-296): deletes the `contextMemory` rows
with `expiresAt < now` (strictly) and returns the new state with the deleted
row count.  The `aiResponses` table is not touched by this method. -/
def cleanExpiredContext (now : Int) (db : DB) : DB × Nat :=
  let kept := db.contextMemory.filter (fun r => !(decide (r.expiresAt < now)))
  let deletedCount := db.contextMemory.length - kept.length
  ({ db with contextMemory := kept }, deletedCount)

/-- Embedding of `IntelligentDetectionService.cleanupExpiredResponses`
(`intelligentDetection.ts` lines 553-560): deletes the `aiResponses` rows with
`expiresAt < NOW()` and returns no count (`Promise<void>`). -/
def cleanupExpiredResponses (now : Int) (db : DB) : DB :=
  { db with aiResponses := db.aiResponses.filter (fun r => !(decide (r.expiresAt < now))) }

/-- Importance clamp of `recordEvent`:
`Math.min(10, Math.max(1, importance))` (`postgresContextService.ts` line 45). -/
def clampImportance (importance : Int) : Int :=
  min 10 (max 1 importance)

/-- Embedding of `PostgresContextService.recordEvent`
(`postgresContextService.ts` lines 14-64): builds the `contextMemory` row —
summary template, participants extracted from truthy `displayName`/`username`,
importance clamped into `[1,10]`, `expiresAt = now + 72h` in milliseconds —
inserts it, and with probability 10 percent (draw `cleanupDraw < 1/10`) runs
the opportunistic expiry sweep.  Returns the new state and the inserted row.

Modelled from the spec: the `contextMemory` schema (in `@shared/schema`, not
among the provided sources) stamps `createdAt` with the insertion time, so the
inserted row carries `createdAt := now`. -/
def recordEvent (now : Int) (userId : String) (eventType : String)
    (eventData : EventData) (guildId : Option String) (importance : Int)
    (originalMessage : Option String) (cleanupDraw : ℚ) (db : DB) :
    DB × ContextMemoryRecord :=
  let expiresAt := now + 72 * 60 * 60 * 1000
  let participants :=
    (if strTruthy eventData.displayName then [eventData.displayName.getD ""] else [])
    ++ (if strTruthy eventData.username then [eventData.username.getD ""] else [])
  let record : ContextMemoryRecord :=
    { userId := userId
      guildId := guildId
      eventType := eventType
      eventData := some eventData
      contextSummary := generateContextSummary eventType eventData
      originalMessage := originalMessage
      banterResponse := none
      importance := clampImportance importance
      participants := participants
      createdAt := now
      expiresAt := expiresAt }
  let db1 : DB := { db with contextMemory := db.contextMemory ++ [record] }
  let db2 := if cleanupDraw < 1 / 10 then (cleanExpiredContext now db1).1 else db1
  (db2, record)

/-- Embedding of `IntelligentDetectionService.recordResponse`
(`intelligentDetection.ts` lines 537-548): inserts an `aiResponses` row with
`expiresAt = now + 24h` in milliseconds.  Returns the new state and the
inserted row.

Modelled from the spec: the `aiResponses` schema (in `@shared/schema`, not
among the provided sources) stamps `createdAt` with the insertion time, so the
inserted row carries `createdAt := now`. -/
def recordResponse (now : Int) (userId : String) (guildId : Option String)
    (responseText : String) (questionAsked : Option String)
    (wasDirectQuestion : Bool) (db : DB) : DB × AiResponseRecord :=
  let record : AiResponseRecord :=
    { userId := userId
      guildId := guildId
      responseText := responseText
      questionAsked := questionAsked
      wasDirectQuestion := wasDirectQuestion
      createdAt := now
      expiresAt := now + 24 * 60 * 60 * 1000 }
  ({ db with aiResponses := db.aiResponses ++ [record] }, record)

/-- Voice-context test of `getContextForBanterInternal`
(`postgresContextService.ts` lines 116-119): the event is voice-sourced when
its `eventType` is `voice_message` or its `eventData` carries
`source === 'voice'`. -/
def isVoiceContext (ctx : ContextMemoryRecord) : Bool :=
  ctx.eventType == "voice_message"
    || (match ctx.eventData with
        | some d => (match d.source with | some s => s == "voice" | none => false)
        | none => false)

/-- Text-context test of `getContextForBanterInternal`
(`postgresContextService.ts` lines 121-124), literally: the `eventType` is not
`voice_message` and the `eventData` is absent, has no `source`, or its
`source` is not `voice`. -/
def isTextContext (ctx : ContextMemoryRecord) : Bool :=
  !(ctx.eventType == "voice_message")
    && (match ctx.eventData with
        | some d => (match d.source with | some s => !(s == "voice") | none => true)
        | none => true)

/-- Voice-priority step of `getContextForBanterInternal`
(`postgresContextService.ts` lines 113-129): `[...voiceContext, ...textContext]`. -/
def prioritizeVoiceContext (l : List ContextMemoryRecord) : List ContextMemoryRecord :=
  l.filter isVoiceContext ++ l.filter isTextContext

/-- Descending-`createdAt` order used by the `.sort((a, b) => b.createdAt - a.createdAt)`
calls of `getContextForBanterInternal`. -/
def createdDescCtx (a b : ContextMemoryRecord) : Prop :=
  b.createdAt ≤ a.createdAt

instance : DecidableRel createdDescCtx :=
  fun a b => Int.decLe b.createdAt a.createdAt

/-- Embedding of `PostgresContextService.shouldUseContextForEvent`
(`postgresContextService.ts` lines 385-398), with the random draw explicit:
for `discord_message` with more than 20 context items, use context when the
draw is below 0.3; always for `subscription`/`donation`/`raid`; otherwise when
the draw is below 0.7. -/
def shouldUseContextForEvent (eventType : String) (contextCount : Nat) (draw : ℚ) : Bool :=
  if eventType == "discord_message" && contextCount > 20 then decide (draw < 3 / 10)
  else if eventType == "subscription" || eventType == "donation" || eventType == "raid" then
    true
  else decide (draw < 7 / 10)

/-- Line rendered for one recent message:
`` `- ${ctx.originalMessage!.substring(0, 100)}\n` ``. -/
def formatRecentLine (ctx : ContextMemoryRecord) : String :=
  "- " ++ (ctx.originalMessage.getD "").take 100 ++ "\n"

/-- Line rendered for one previous response example:
`` `- "${ctx.banterResponse!.substring(0, 80)}"\n` ``. -/
def formatExampleLine (ctx : ContextMemoryRecord) : String :=
  "- \"" ++ (ctx.banterResponse.getD "").take 80 ++ "\"\n"

/-- Embedding of `PostgresContextService.getContextForBanterInternal`
(`postgresContextService.ts` lines 91-221) on an already-loaded list of
unexpired, newest-first rows for the owner, with the two random draws
explicit (`useDraw` for `shouldUseContextForEvent`, `exampleDraw` for the
20-percent example inclusion). -/
def getContextForBanterInternal (recentContext : List ContextMemoryRecord)
    (currentEventType : String) (guildId : Option String)
    (prioritizeVoice : Bool) (useDraw exampleDraw : ℚ) : String :=
  let processedContext :=
    if prioritizeVoice then prioritizeVoiceContext recentContext else recentContext
  let shouldUseContext :=
    shouldUseContextForEvent currentEventType processedContext.length useDraw
  if !shouldUseContext then ""
  else
    let guildContext :=
      match guildId with
      | some g => processedContext.filter (fun ctx => ctx.guildId == some g)
      | none => processedContext.filter (fun ctx => !(strTruthy ctx.guildId))
    let globalContext :=
      match guildId with
      | some _ => processedContext.filter (fun ctx => !(strTruthy ctx.guildId))
      | none => []
    let combinedContext :=
      (List.insertionSort createdDescCtx (guildContext ++ globalContext)).take 4
    let similarContext :=
      (List.insertionSort createdDescCtx
        ((processedContext.filter (fun ctx => ctx.eventType == currentEventType)).filter
          (fun ctx =>
            match guildId with
            | some g => ctx.guildId == some g || !(strTruthy ctx.guildId)
            | none => !(strTruthy ctx.guildId)))).take 2
    if combinedContext.length == 0 && similarContext.length == 0 then ""
    else
      let recentMessages :=
        (combinedContext.filter
          (fun ctx =>
            match ctx.originalMessage with
            | some m => decide (m.length > 5)
            | none => false)).take 3
      let s1 :=
        if combinedContext.length > 0 then
          if recentMessages.length > 0 then
            "Recent conversation:\n"
              ++ String.join (recentMessages.map formatRecentLine) ++ "\n"
          else ""
        else ""
      let uniqueResponses :=
        (similarContext.filter
          (fun ctx =>
            match ctx.banterResponse with
            | some b => decide (b.length > 10)
            | none => false)).take 1
      let s2 :=
        if similarContext.length > 0 && decide (exampleDraw < 2 / 10) then
          if uniqueResponses.length > 0 then
            "Previous response example:\n"
              ++ String.join (uniqueResponses.map formatExampleLine) ++ "\n"
          else ""
        else ""
      let contextString := s1 ++ s2
      if !(contextString == "") then
        contextString
          ++ "Use this context for natural conversation flow, but keep responses fresh and varied. Don\x27t repeat the same phrases or references too often."
      else contextString

/-- Embedding of `PostgresContextService.getContextForBanter`
(`postgresContextService.ts` lines 69-75), the `forGeneration` entry point:
the storage read is an `Except`; the surrounding `catch` turns any storage
error into the empty string. -/
def getContextForBanter (loaded : Except Unit (List ContextMemoryRecord))
    (currentEventType : String) (guildId : Option String)
    (useDraw exampleDraw : ℚ) : String :=
  match loaded with
  | .ok l => getContextForBanterInternal l currentEventType guildId false useDraw exampleDraw
  | .error _ => ""

/-- Embedding of `PostgresContextService.getContextForDirectQuestions`
(`postgresContextService.ts` lines 80-86), the voice-biased entry point. -/
def getContextForDirectQuestions (loaded : Except Unit (List ContextMemoryRecord))
    (currentEventType : String) (guildId : Option String)
    (useDraw exampleDraw : ℚ) : String :=
  match loaded with
  | .ok l => getContextForBanterInternal l currentEventType guildId true useDraw exampleDraw
  | .error _ => ""

/-- Concrete `aiResponses` row used as the expired `PriorResponse` in the
sweep counterexample: it expired at time 1. -/
def exPriorResponse : AiResponseRecord :=
  { userId := "u1"
    guildId := none
    responseText := "the car was red"
    questionAsked := none
    wasDirectQuestion := false
    createdAt := 0
    expiresAt := 1 }

/-- Concrete database holding one expired `PriorResponse` and no
`ContextEvent`s, used in the sweep counterexample. -/
def exDB : DB :=
  { contextMemory := []
    aiResponses := [exPriorResponse] }

/-! ## Helper lemmas -/

theorem length_sub_filter_not {α : Type} (p : α → Bool) (l : List α) :
    l.length - (l.filter fun a => !(p a)).length = (l.filter p).length := by
  induction l with
  | nil => rfl
  | cons a t ih =>
    have hle := List.length_filter_le (fun x => !(p x)) t
    cases h : p a <;> simp [List.filter_cons, h] <;> omega

theorem or_gt_seven_redundant (raw : Int) :
    (decide (raw ≥ 5) || decide (min raw 10 > 7)) = decide (raw ≥ 5) := by
  have h1 : min raw 10 ≤ raw := min_le_left _ _
  by_cases h : raw ≥ 5
  · simp [h]
  · have h2 : ¬ min raw 10 > 7 := by omega
    simp [h, h2]

theorem isTextContext_eq_not_voice (c : ContextMemoryRecord) :
    isTextContext c = !(isVoiceContext c) := by
  rcases c with ⟨u, g, et, ed, cs, om, br, imp, ps, ca, ea⟩
  rcases ed with _ | ⟨dn, du, dem, dm, src⟩
  · simp [isTextContext, isVoiceContext]
  · rcases src with _ | s
    · simp [isTextContext, isVoiceContext]
    · simp [isTextContext, isVoiceContext, Bool.not_or]

/-! ## Claim theorems -/

/-- C1 counterexample: the claim that the confidence returned by
`detectDirectQuestion` always lies in `[0,10]` is false.  On a message with no
pattern match, no temporal indicator and no question mark, with a successful
storage read yielding no related responses and no specific references, and
with the advisory classifier disagreeing, the returned confidence is `-2`,
which is below `0`. -/
theorem detect_confidence_below_zero :
    (detectDirectQuestion ⟨false, false, false⟩
      (.ok [] false (.succeeded false "General conversation"))).confidence = -2
    ∧ ¬ (0 ≤ (detectDirectQuestion ⟨false, false, false⟩
      (.ok [] false (.succeeded false "General conversation"))).confidence) := by
  refine ⟨rfl, ?_⟩
  intro h
  have h2 : (detectDirectQuestion ⟨false, false, false⟩
      (.ok [] false (.succeeded false "General conversation"))).confidence = -2 := rfl
  omega

/-- C1 (amended): for every input message and every outcome of the scoring
terms, the confidence returned by `detectDirectQuestion` lies in the interval
`[-2, 10]`: it is clamped above at `10` by `Math.min`, and the only negative
term is the advisory-disagree adjustment of `-2`, but there is no lower clamp
at `0`. -/
theorem detect_confidence_range (msg : MessageFeatures) (storage : StorageOutcome) :
    -2 ≤ (detectDirectQuestion msg storage).confidence
    ∧ (detectDirectQuestion msg storage).confidence ≤ 10 := by
  rcases storage with ⟨related, specific, openai⟩ | _
  · dsimp only [detectDirectQuestion, analyzeMessage]
    constructor
    · refine le_min ?_ (by norm_num)
      rcases openai with _ | ⟨b, r⟩
      · split_ifs <;> norm_num
      · cases b <;> split_ifs <;> norm_num
    · exact min_le_right _ _
  · dsimp only [detectDirectQuestion, analyzeMessageRuleBased]
    constructor
    · refine le_min ?_ (by norm_num)
      split_ifs <;> norm_num
    · exact min_le_right _ _

/-- C2 counterexample: the claim that `cleanExpiredContext` deletes the
expired records of both kinds and returns the number removed is false.  On a
database holding one `PriorResponse` (`aiResponses` row) that expired at time
`1`, a sweep at time `5` leaves that expired row in place and reports `0`
records removed, although a record with `expiresAt < now` is present. -/
theorem cleanExpiredContext_misses_prior_responses :
    (cleanExpiredContext 5 exDB).2 = 0
    ∧ (cleanExpiredContext 5 exDB).1.aiResponses = [exPriorResponse]
    ∧ exPriorResponse.expiresAt < 5 := by
  refine ⟨rfl, rfl, by norm_num [exPriorResponse]⟩

/-- C2 (amended): a call to `cleanExpiredContext` at time `now` deletes
exactly those `ContextEvent` (`contextMemory`) records whose `expiresAt` is
earlier than `now`, returns the number of those records removed, leaves the
`PriorResponse` (`aiResponses`) records untouched, and an immediately repeated
call removes zero records.  Expired `PriorResponse` rows are instead deleted
by the separate `cleanupExpiredResponses`, which returns no count. -/
theorem cleanExpiredContext_spec (now : Int) (db : DB) :
    (∀ r, r ∈ (cleanExpiredContext now db).1.contextMemory
      ↔ r ∈ db.contextMemory ∧ ¬ r.expiresAt < now)
    ∧ (cleanExpiredContext now db).2
        = (db.contextMemory.filter (fun r => decide (r.expiresAt < now))).length
    ∧ (cleanExpiredContext now db).1.aiResponses = db.aiResponses
    ∧ (cleanExpiredContext now (cleanExpiredContext now db).1).2 = 0
    ∧ (cleanupExpiredResponses now db).aiResponses
        = db.aiResponses.filter (fun r => !(decide (r.expiresAt < now)))
    ∧ (cleanupExpiredResponses now db).contextMemory = db.contextMemory := by
  refine ⟨?_, ?_, rfl, ?_, rfl, rfl⟩
  · intro r
    simp [cleanExpiredContext, List.mem_filter]
  · exact length_sub_filter_not _ _
  · simp [cleanExpiredContext, List.filter_filter]

/-- C3: a message on which only the pattern-match and question-format features
fire (total `4 + 1 = 5`, with no related responses, no specific reference, no
temporal indicator, and the advisory term absent) is classified
`isDirectQuestion = true` with confidence `5`, and a message on which only the
temporal indicator fires is classified `isDirectQuestion = false` with
confidence `1` — on both the full analysis and the rule-based fallback. -/
theorem classification_threshold :
    (analyzeMessage ⟨true, false, true⟩ [] false .failed).isDirectQuestion = true
    ∧ (analyzeMessage ⟨true, false, true⟩ [] false .failed).confidence = 5
    ∧ (analyzeMessage ⟨false, true, false⟩ [] false .failed).isDirectQuestion = false
    ∧ (analyzeMessage ⟨false, true, false⟩ [] false .failed).confidence = 1
    ∧ (analyzeMessageRuleBased ⟨true, false, true⟩).isDirectQuestion = true
    ∧ (analyzeMessageRuleBased ⟨true, false, true⟩).confidence = 5
    ∧ (analyzeMessageRuleBased ⟨false, true, false⟩).isDirectQuestion = false
    ∧ (analyzeMessageRuleBased ⟨false, true, false⟩).confidence = 1 := by
  refine ⟨rfl, rfl, rfl, rfl, rfl, rfl, rfl, rfl⟩

/-- C4: when the storage read fails, `detectDirectQuestion` returns a result
computed from only the pattern-match, temporal-indicator and question-format
terms — the confidence is exactly the upper-clamped sum of those three terms,
with no related-response, specific-reference or advisory contribution — the
`relatedResponses` list is empty, and the reasoning carries the fallback-mode
note.  The embedded function is total, so no exception escapes. -/
theorem detect_fallback_rule_based_only (msg : MessageFeatures) :
    (detectDirectQuestion msg .failed).confidence =
      min ((if msg.patternMatch then (4 : Int) else 0)
        + (if msg.hasTemporalIndicators then 1 else 0)
        + (if msg.isQuestionFormat then 1 else 0)) 10
    ∧ (detectDirectQuestion msg .failed).relatedResponses = []
    ∧ (detectDirectQuestion msg .failed).reasoning
        = (analyzeMessageRuleBased msg).reasoning ++ " (Fallback mode - database unavailable)"
    ∧ (detectDirectQuestion msg .failed).isDirectQuestion
        = decide ((if msg.patternMatch then (4 : Int) else 0)
            + (if msg.hasTemporalIndicators then 1 else 0)
            + (if msg.isQuestionFormat then 1 else 0) ≥ 5) := by
  refine ⟨rfl, rfl, rfl, rfl⟩

/-- C5: starting from a message on which all five scoring features are absent,
turning on exactly one of the five features (pattern match, related response,
specific reference, temporal indicator, question mark) never yields a lower
confidence than the all-absent baseline, for every outcome of the advisory
classifier. -/
theorem single_feature_monotone (o : OpenAIOutcome) (r : AiResponseRecord)
    (rs : List AiResponseRecord) :
    (analyzeMessage ⟨false, false, false⟩ [] false o).confidence
      ≤ (analyzeMessage ⟨true, false, false⟩ [] false o).confidence
    ∧ (analyzeMessage ⟨false, false, false⟩ [] false o).confidence
      ≤ (analyzeMessage ⟨false, false, false⟩ (r :: rs) false o).confidence
    ∧ (analyzeMessage ⟨false, false, false⟩ [] false o).confidence
      ≤ (analyzeMessage ⟨false, false, false⟩ [] true o).confidence
    ∧ (analyzeMessage ⟨false, false, false⟩ [] false o).confidence
      ≤ (analyzeMessage ⟨false, true, false⟩ [] false o).confidence
    ∧ (analyzeMessage ⟨false, false, false⟩ [] false o).confidence
      ≤ (analyzeMessage ⟨false, false, true⟩ [] false o).confidence := by
  rcases o with _ | ⟨b, s⟩
  · dsimp only [analyzeMessage]
    norm_num
  · cases b <;> dsimp only [analyzeMessage] <;> norm_num

/-- C6: the `ContextEvent` row built by `recordEvent` has
`expiresAt = createdAt + 72` hours (in milliseconds), and the `PriorResponse`
row built by `recordResponse` has `expiresAt = createdAt + 24` hours. -/
theorem retention_windows (now : Int) (userId eventType : String) (ed : EventData)
    (guildId : Option String) (importance : Int) (om : Option String) (draw : ℚ)
    (db : DB) (responseText : String) (qa : Option String) (wdq : Bool) :
    (recordEvent now userId eventType ed guildId importance om draw db).2.expiresAt
      = (recordEvent now userId eventType ed guildId importance om draw db).2.createdAt
        + 72 * 60 * 60 * 1000
    ∧ (recordResponse now userId guildId responseText qa wdq db).2.expiresAt
      = (recordResponse now userId guildId responseText qa wdq db).2.createdAt
        + 24 * 60 * 60 * 1000 := by
  refine ⟨rfl, rfl⟩

/-- C7: the importance stored by `recordEvent` always lies in `[1, 10]`; in
particular an input importance of `-5` is stored as `1` and an input of `99`
is stored as `10`. -/
theorem importance_clamped (now : Int) (userId eventType : String) (ed : EventData)
    (guildId : Option String) (importance : Int) (om : Option String) (draw : ℚ)
    (db : DB) :
    1 ≤ (recordEvent now userId eventType ed guildId importance om draw db).2.importance
    ∧ (recordEvent now userId eventType ed guildId importance om draw db).2.importance ≤ 10
    ∧ (recordEvent now userId eventType ed guildId (-5) om draw db).2.importance = 1
    ∧ (recordEvent now userId eventType ed guildId 99 om draw db).2.importance = 10 := by
  refine ⟨?_, ?_, rfl, rfl⟩
  · show 1 ≤ clampImportance importance
    unfold clampImportance
    omega
  · show clampImportance importance ≤ 10
    unfold clampImportance
    omega

/-- C8: the voice-priority step of `getContextForBanterInternal` returns a
permutation of its input — the voice-sourced events followed by the others —
so biasing for direct questions reorders the retrieved events and never drops
or adds one. -/
theorem prioritize_voice_perm (l : List ContextMemoryRecord) :
    (prioritizeVoiceContext l).Perm l
    ∧ prioritizeVoiceContext l = l.filter isVoiceContext ++ l.filter isTextContext := by
  refine ⟨?_, rfl⟩
  have hf : l.filter isTextContext = l.filter (fun c => !(isVoiceContext c)) :=
    List.filter_congr (fun c _ => isTextContext_eq_not_voice c)
  unfold prioritizeVoiceContext
  rw [hf]
  exact List.filter_append_perm _ l

/-- C9: for an owner with zero stored events, `getContextForBanter` returns
the empty string for every event type, guild and outcome of the probabilistic
use-context and example-inclusion draws; a failing storage read also returns
the empty string.  The embedded function is total, so no exception escapes. -/
theorem empty_store_returns_empty (eventType : String) (guildId : Option String)
    (useDraw exampleDraw : ℚ) :
    getContextForBanter (.ok []) eventType guildId useDraw exampleDraw = ""
    ∧ getContextForBanter (.error ()) eventType guildId useDraw exampleDraw = "" := by
  refine ⟨?_, rfl⟩
  rcases guildId with _ | g <;>
    cases hS : shouldUseContextForEvent eventType 0 useDraw <;>
      simp [getContextForBanter, getContextForBanterInternal, hS, List.insertionSort]

/-- C10: on both the normal and the storage-fallback path of
`detectDirectQuestion`, `shouldAlwaysRespond` equals `isDirectQuestion`: the
`confidence > 7` disjunct can only hold when the unclamped score already
reaches `5`, so it never independently forces a response. -/
theorem should_always_respond_eq (msg : MessageFeatures) (storage : StorageOutcome) :
    (detectDirectQuestion msg storage).shouldAlwaysRespond
      = (detectDirectQuestion msg storage).isDirectQuestion := by
  rcases storage with ⟨related, specific, openai⟩ | _
  · dsimp only [detectDirectQuestion, analyzeMessage]
    exact or_gt_seven_redundant _
  · rfl

end Banterbox
